import Mathlib

/-!
Shallow embedding of the CETac Hebrew Activity Generator core pipeline
(backend/services/content_generator.py, backend/services/prompt_manager.py,
backend/models/content_models.py, backend/models/config_models.py,
backend/models/request_models.py, backend/models/response_models.py).

Python strings are modelled as `List Char`; machine integers as `Int`/`Nat`
(no overflow is possible in the modelled code paths); fallible code returns
`Option`/`Except`.  Pydantic validation collects every field error before
failing, while the embedding short-circuits at the first failing check; the
two agree on whether construction succeeds and, downstream, on the single
collapsed error that `ContentGenerator.generate_activity` re-raises, which is
all the development reasons about.
-/

namespace CETac

set_option maxRecDepth 100000

/-- Python `str.strip()` (both-ends whitespace removal), as used by the
topic sanitizer, the text-content validator and `extract_json`. -/
def pyStrip (s : List Char) : List Char :=
  ((s.dropWhile Char.isWhitespace).reverse.dropWhile Char.isWhitespace).reverse

/-- Python `str.lower()`; the sanitizer only compares against ASCII
patterns, for which `Char.toLower` agrees with Python. -/
def pyLower (s : List Char) : List Char := s.map Char.toLower

/-- The opening-brace character, written by code point. -/
def lbrace : Char := Char.ofNat 123

/-- The closing-brace character, written by code point. -/
def rbrace : Char := Char.ofNat 125

/-- Membership in the Hebrew Unicode block U+0590..U+05FF, as tested by
`any('֐' <= c <= '׿' for c in v)` in content_models.py. -/
def isHebrewChar (c : Char) : Bool := 0x0590 ≤ c.toNat && c.toNat ≤ 0x05FF

/-- Membership in the niqqud (vowel point) range U+0591..U+05C7, the
character class of the regex `[֑-ׇ]` in content_models.py. -/
def isNiqqud (c : Char) : Bool := 0x0591 ≤ c.toNat && c.toNat ≤ 0x05C7

/-- `len(re.findall(r'[֑-ׇ]', v))` from
`ContentModel.validate_hebrew_content`. -/
def countNiqqud (s : List Char) : Nat := (s.filter isNiqqud).length

/-- `any('֐' <= c <= '׿' for c in v)` from content_models.py. -/
def hasHebrew (s : List Char) : Bool := s.any isHebrewChar

/-- The regex `^[ABC][12]$` used for `cefr_level` (content_models.py) and
`level` (request_models.py, config_models.py). -/
def cefrPattern (s : List Char) : Bool :=
  match s with
  | [a, b] => (a == 'A' || a == 'B' || a == 'C') && (b == '1' || b == '2')
  | _ => false

/-- The bracket-depth loop of `extract_json` (content_generator.py lines
77-86): `acc` holds the scanned characters in reverse, `depth` is the stack
size, `full` is the text from the first opening brace (returned when the
loop ends with a non-empty stack, line 86).  A closing brace met at depth 0
is skipped, modelling the `if stack:` guard. -/
def braceScan (full : List Char) : Nat → List Char → List Char → List Char
  | _, _, [] => full
  | depth, acc, c :: rest =>
    if c = lbrace then braceScan full (depth + 1) (c :: acc) rest
    else if c = rbrace then
      match depth with
      | 0 => braceScan full 0 (c :: acc) rest
      | 1 => (c :: acc).reverse
      | d + 2 => braceScan full (d + 1) (c :: acc) rest
    else braceScan full depth (c :: acc) rest

/-- `extract_json` from `ContentGenerator.generate_activity`
(content_generator.py lines 71-86): strip the raw text, find the first
opening brace (return the stripped text unchanged if there is none), then
run the bracket-depth scan from it. -/
def extract_json (res_text : List Char) : List Char :=
  let t := pyStrip res_text
  match t.dropWhile (fun c => !(c == lbrace)) with
  | [] => t
  | b :: rest => braceScan (b :: rest) 1 [b] rest

/-! ### JSON values and `json.loads`

The pipeline feeds the extracted candidate to `json.loads`.  The model below
covers the JSON subset the generator's payloads use: objects, arrays,
strings with simple escapes, integer numbers, booleans and null.  (Floats
and `\uXXXX` escapes never occur in the modelled inputs; a document using
them would simply fail to parse in the model.) -/

inductive JsonVal where
  | str (s : List Char)
  | num (n : Int)
  | bool (b : Bool)
  | null
  | arr (xs : List JsonVal)
  | obj (fields : List (List Char × JsonVal))

/-- Single-character string escapes recognised by the JSON model. -/
def escChar (c : Char) : Option Char :=
  if c = '"' then some '"'
  else if c = '\\' then some '\\'
  else if c = '/' then some '/'
  else if c = 'n' then some (Char.ofNat 10)
  else if c = 't' then some (Char.ofNat 9)
  else if c = 'r' then some (Char.ofNat 13)
  else if c = 'b' then some (Char.ofNat 8)
  else if c = 'f' then some (Char.ofNat 12)
  else none

/-- Body of a JSON string literal, after the opening quote: returns the
decoded characters and the rest of the input after the closing quote. -/
def parseStringBody : Nat → List Char → Option (List Char × List Char)
  | 0, _ => none
  | _ + 1, [] => none
  | fuel + 1, c :: rest =>
    if c = '"' then some ([], rest)
    else if c = '\\' then
      match rest with
      | [] => none
      | e :: rest2 =>
        match escChar e with
        | none => none
        | some d =>
          match parseStringBody fuel rest2 with
          | none => none
          | some (cs, r) => some (d :: cs, r)
    else
      match parseStringBody fuel rest with
      | none => none
      | some (cs, r) => some (c :: cs, r)

/-- Decimal digit run, as a natural number. -/
def parseDigitsTok (s : List Char) : Option (Nat × List Char) :=
  let ds := s.takeWhile Char.isDigit
  if ds.isEmpty then none
  else some (ds.foldl (fun a c => a * 10 + (c.toNat - 48)) 0, s.dropWhile Char.isDigit)

/-- Integer JSON number token (optional leading minus). -/
def parseIntTok (s : List Char) : Option (Int × List Char) :=
  match s with
  | '-' :: rest =>
    match parseDigitsTok rest with
    | none => none
    | some (n, r) => some (-(n : Int), r)
  | _ =>
    match parseDigitsTok s with
    | none => none
    | some (n, r) => some ((n : Int), r)

/-- Leading-whitespace removal used between JSON tokens. -/
def skipWs (s : List Char) : List Char := s.dropWhile Char.isWhitespace

mutual

/-- One JSON value, fuelled recursive-descent. -/
def parseValue : Nat → List Char → Option (JsonVal × List Char)
  | 0, _ => none
  | fuel + 1, s0 =>
    let s := skipWs s0
    match s with
    | [] => none
    | c :: rest =>
      if c = '"' then
        match parseStringBody (rest.length + 1) rest with
        | none => none
        | some (cs, r) => some (.str cs, r)
      else if c = lbrace then
        match parseObjRest fuel true rest with
        | none => none
        | some (fs, r) => some (.obj fs, r)
      else if c = '[' then
        match parseArrRest fuel true rest with
        | none => none
        | some (xs, r) => some (.arr xs, r)
      else if ("true").data.isPrefixOf s then some (.bool true, s.drop 4)
      else if ("false").data.isPrefixOf s then some (.bool false, s.drop 5)
      else if ("null").data.isPrefixOf s then some (.null, s.drop 4)
      else
        match parseIntTok s with
        | none => none
        | some (n, r) => some (.num n, r)

/-- Object members, after the opening brace (`first = true`) or after a
comma (`first = false`, where a closing brace is no longer legal). -/
def parseObjRest : Nat → Bool → List Char → Option (List (List Char × JsonVal) × List Char)
  | 0, _, _ => none
  | fuel + 1, first, s0 =>
    let s := skipWs s0
    match s with
    | [] => none
    | c :: rest =>
      if first ∧ c = rbrace then some ([], rest)
      else if c = '"' then
        match parseStringBody (rest.length + 1) rest with
        | none => none
        | some (key, r1) =>
          match skipWs r1 with
          | ':' :: r3 =>
            match parseValue fuel r3 with
            | none => none
            | some (v, r4) =>
              match skipWs r4 with
              | ',' :: r6 =>
                match parseObjRest fuel false r6 with
                | none => none
                | some (fs, r7) => some ((key, v) :: fs, r7)
              | c2 :: r6 => if c2 = rbrace then some ([(key, v)], r6) else none
              | [] => none
          | _ => none
      else none

/-- Array elements, after the opening bracket (`first = true`) or after a
comma. -/
def parseArrRest : Nat → Bool → List Char → Option (List JsonVal × List Char)
  | 0, _, _ => none
  | fuel + 1, first, s0 =>
    let s := skipWs s0
    match s with
    | [] => none
    | c :: _ =>
      if first ∧ c = ']' then some ([], s.drop 1)
      else
        match parseValue fuel s with
        | none => none
        | some (v, r1) =>
          match skipWs r1 with
          | ',' :: r3 =>
            match parseArrRest fuel false r3 with
            | none => none
            | some (xs, r4) => some (v :: xs, r4)
          | ']' :: r3 => some ([v], r3)
          | _ => none

end

/-- `json.loads` on the modelled JSON subset: parse one value and require
that only whitespace remains. -/
def parseJson (s : List Char) : Option JsonVal :=
  match parseValue (s.length + 1) s with
  | none => none
  | some (v, r) => if (skipWs r).isEmpty then some v else none

/-! ### Content models (backend/models/content_models.py) -/

/-- Bloom's-taxonomy cognitive levels (`BloomLevel` enum). -/
inductive BloomLevel where
  | remembering
  | understanding
  | applying
  | analyzing
  | evaluating
  | creating
deriving DecidableEq

/-- The six admissible string values of the `BloomLevel` enum; pydantic
coerces a string field to the enum member with that value. -/
def bloomOfString (s : List Char) : Option BloomLevel :=
  if s = ("Remembering").data then some .remembering
  else if s = ("Understanding").data then some .understanding
  else if s = ("Applying").data then some .applying
  else if s = ("Analyzing").data then some .analyzing
  else if s = ("Evaluating").data then some .evaluating
  else if s = ("Creating").data then some .creating
  else none

/-- `VocabularyItem`: the `hebrew` field is stored stripped by its
validator. -/
structure VocabularyItem where
  hebrew : List Char
  english : List Char
deriving DecidableEq

/-- `Question` from content_models.py. -/
structure Question where
  id : Int
  stem_hebrew : List Char
  options : List (List Char)
  correct_answer_index : Int
  explanation : List Char
  cognitive_level : BloomLevel
deriving DecidableEq

/-- `ContentModel` from content_models.py; `text_content` is stored
stripped by its validator. -/
structure ContentModel where
  title_hebrew : List Char
  cefr_level : List Char
  text_content : List Char
  vocabulary_list : List VocabularyItem
  questions : List Question
deriving DecidableEq

/-- Python dict field access on a parsed JSON object; on duplicate keys
`json.loads` keeps the last occurrence. -/
def lookupLast (fs : List (List Char × JsonVal)) (k : List Char) : Option JsonVal :=
  fs.foldl (fun acc p => if p.1 = k then some p.2 else acc) none

/-- String-typed field value. -/
def asStr : JsonVal → Option (List Char)
  | .str s => some s
  | _ => none

/-- Integer-typed field value. -/
def asInt : JsonVal → Option Int
  | .num n => some n
  | _ => none

/-- Array-typed field value. -/
def asArr : JsonVal → Option (List JsonVal)
  | .arr xs => some xs
  | _ => none

/-- Required string field of a JSON object. -/
def reqStr (fs : List (List Char × JsonVal)) (k : List Char) : Option (List Char) :=
  (lookupLast fs k).bind asStr

/-- A failing pydantic check: `some ()` when the condition holds, `none`
(construction fails) otherwise. -/
def ensure (p : Prop) [Decidable p] : Option Unit :=
  if p then some () else none

/-- `"A1"` / `"A2"`: the membership test
`info.data.get("cefr_level") in ["A1", "A2"]` of
`ContentModel.validate_hebrew_content`. -/
def isElementaryLevel (lvl : List Char) : Bool :=
  lvl == ("A1").data || lvl == ("A2").data

/-- `ContentModel.validate_hebrew_content` as a predicate on the raw
`text_content` value: Hebrew characters required always, and at least 10
niqqud marks when the already-validated `cefr_level` is A1 or A2. -/
def textContentOk (lvl txt : List Char) : Bool :=
  hasHebrew txt && (!isElementaryLevel lvl || decide (10 ≤ countNiqqud txt))

/-- `expected_ids = list(range(1, len(self.questions) + 1))` from
`ContentModel.model_post_init`. -/
def expectedIds (n : Nat) : List Int :=
  (List.range' 1 n).map Int.ofNat

/-- The sequential-id invariant of `ContentModel.model_post_init`:
`sorted([q.id for q in self.questions]) == expected_ids`. -/
def checkSequentialIds (ids : List Int) : Prop :=
  List.insertionSort (fun a b => a ≤ b) ids = expectedIds ids.length

instance (ids : List Int) : Decidable (checkSequentialIds ids) := by
  unfold checkSequentialIds; infer_instance

/-- The degenerate-distribution test of
`ContentModel.validate_bloom_distribution`:
`len(set(levels)) == 1 and len(levels) > 2`. -/
def bloomViolation (ls : List BloomLevel) : Prop :=
  ls.dedup.length = 1 ∧ 2 < ls.length

instance (ls : List BloomLevel) : Decidable (bloomViolation ls) := by
  unfold bloomViolation; infer_instance

/-- Pydantic construction of one `Question` from a JSON value: field
presence, types and declared bounds, plus the `validate_options_unique`
field validator, in declaration order. -/
def questionFromJson (j : JsonVal) : Option Question :=
  match j with
  | .obj fs =>
    ((lookupLast fs (("id").data)).bind asInt).bind fun id =>
    (ensure (1 ≤ id)).bind fun _ =>
    (reqStr fs (("stem_hebrew").data)).bind fun stem =>
    (ensure (5 ≤ stem.length)).bind fun _ =>
    ((lookupLast fs (("options").data)).bind asArr).bind fun optsJ =>
    (optsJ.mapM asStr).bind fun opts =>
    (ensure (opts.length = 4)).bind fun _ =>
    (ensure opts.Nodup).bind fun _ =>
    ((lookupLast fs (("correct_answer_index").data)).bind asInt).bind fun idx =>
    (ensure (0 ≤ idx ∧ idx ≤ 3)).bind fun _ =>
    (reqStr fs (("explanation").data)).bind fun expl =>
    (ensure (10 ≤ expl.length)).bind fun _ =>
    (reqStr fs (("cognitive_level").data)).bind fun blS =>
    (bloomOfString blS).bind fun bl =>
    some ⟨id, stem, opts, idx, expl, bl⟩
  | _ => none

/-- Pydantic construction of one `VocabularyItem` from a JSON value,
including the `validate_hebrew` field validator (which also strips the
stored Hebrew term). -/
def vocabFromJson (j : JsonVal) : Option VocabularyItem :=
  match j with
  | .obj fs =>
    (reqStr fs (("hebrew").data)).bind fun h =>
    (ensure (1 ≤ h.length)).bind fun _ =>
    (ensure (hasHebrew h = true)).bind fun _ =>
    (reqStr fs (("english").data)).bind fun e =>
    (ensure (1 ≤ e.length)).bind fun _ =>
    some ⟨pyStrip h, e⟩
  | _ => none

/-- `ContentModel(**content_data)`: field checks in declaration order
(title, level, text, vocabulary, questions), then the
`validate_bloom_distribution` field validator, then the sequential-id check
of `model_post_init`.  Pydantic collects all field errors; the embedding
short-circuits, agreeing on success/failure. -/
def contentFromFields (fs : List (List Char × JsonVal)) : Option ContentModel :=
  (reqStr fs (("title_hebrew").data)).bind fun title =>
  (ensure (3 ≤ title.length ∧ title.length ≤ 100)).bind fun _ =>
  (reqStr fs (("cefr_level").data)).bind fun lvl =>
  (ensure (cefrPattern lvl = true)).bind fun _ =>
  (reqStr fs (("text_content").data)).bind fun txt =>
  (ensure (50 ≤ txt.length ∧ txt.length ≤ 1000)).bind fun _ =>
  (ensure (textContentOk lvl txt = true)).bind fun _ =>
  ((lookupLast fs (("vocabulary_list").data)).bind asArr).bind fun vocJ =>
  (ensure (3 ≤ vocJ.length ∧ vocJ.length ≤ 15)).bind fun _ =>
  (vocJ.mapM vocabFromJson).bind fun voc =>
  ((lookupLast fs (("questions").data)).bind asArr).bind fun qsJ =>
  (ensure (3 ≤ qsJ.length ∧ qsJ.length ≤ 10)).bind fun _ =>
  (qsJ.mapM questionFromJson).bind fun qs =>
  (ensure (¬ bloomViolation (qs.map Question.cognitive_level))).bind fun _ =>
  (ensure (checkSequentialIds (qs.map Question.id))).bind fun _ =>
  some ⟨title, lvl, pyStrip txt, voc, qs⟩

/-! ### The spec's structural-schema layer (§4.5)

`specQuestionSchemaOk` / `specStructuralSchemaOk` are *not* translated from
the Python source.  Modelled from the spec: §4.5 defines `SchemaViolation`
as "parses, but required fields are missing, mistyped, or out of declared
bounds", as distinct from `DomainInvariantViolation` ("passes structural
schema but fails a cross-field rule: script/vowel-mark requirements,
duplicate options, non-sequential ids, degenerate cognitive-level
distribution").  These booleans capture exactly the structural layer, so
that a candidate can be exhibited that passes it yet fails validation. -/

/-- Modelled from the spec: structural (presence/type/bounds) checks of one
question, excluding the domain-layer duplicate-options rule. -/
def specQuestionSchemaOk (j : JsonVal) : Bool :=
  match j with
  | .obj fs =>
    (match (lookupLast fs (("id").data)).bind asInt with
     | some id => decide (1 ≤ id)
     | none => false) &&
    (match reqStr fs (("stem_hebrew").data) with
     | some stem => decide (5 ≤ stem.length)
     | none => false) &&
    (match (lookupLast fs (("options").data)).bind asArr with
     | some optsJ =>
       match optsJ.mapM asStr with
       | some opts => decide (opts.length = 4)
       | none => false
     | none => false) &&
    (match (lookupLast fs (("correct_answer_index").data)).bind asInt with
     | some idx => decide (0 ≤ idx ∧ idx ≤ 3)
     | none => false) &&
    (match reqStr fs (("explanation").data) with
     | some expl => decide (10 ≤ expl.length)
     | none => false) &&
    (match reqStr fs (("cognitive_level").data) with
     | some blS => (bloomOfString blS).isSome
     | none => false)
  | _ => false

/-- Modelled from the spec: structural (presence/type/bounds) checks of one
vocabulary item, excluding the domain-layer Hebrew-script rule. -/
def specVocabSchemaOk (j : JsonVal) : Bool :=
  match j with
  | .obj fs =>
    (match reqStr fs (("hebrew").data) with
     | some h => decide (1 ≤ h.length)
     | none => false) &&
    (match reqStr fs (("english").data) with
     | some e => decide (1 ≤ e.length)
     | none => false)
  | _ => false

/-- Modelled from the spec: the §4.5 structural schema of a candidate
activity object — field presence, types and declared bounds only, with all
cross-field/domain rules excluded. -/
def specStructuralSchemaOk (fs : List (List Char × JsonVal)) : Bool :=
  (match reqStr fs (("title_hebrew").data) with
   | some t => decide (3 ≤ t.length ∧ t.length ≤ 100)
   | none => false) &&
  (match reqStr fs (("cefr_level").data) with
   | some lvl => cefrPattern lvl
   | none => false) &&
  (match reqStr fs (("text_content").data) with
   | some txt => decide (50 ≤ txt.length ∧ txt.length ≤ 1000)
   | none => false) &&
  (match (lookupLast fs (("vocabulary_list").data)).bind asArr with
   | some voc => decide (3 ≤ voc.length ∧ voc.length ≤ 15) && voc.all specVocabSchemaOk
   | none => false) &&
  (match (lookupLast fs (("questions").data)).bind asArr with
   | some qs => decide (3 ≤ qs.length ∧ qs.length ≤ 10) && qs.all specQuestionSchemaOk
   | none => false)

/-! ### The orchestrator's validation stage (content_generator.py 88-98) -/

/-- Python exceptions observable by a caller of
`ContentGenerator.generate_activity`.  `FileNotFoundError` is raised by the
config sources (its path detail is not modelled); `ValueError` carries the
message the orchestrator or `PromptManager` constructs; a non-mapping JSON
payload makes `ContentModel(**data)` raise `TypeError`, which propagates
uncaught. -/
inductive PyErr where
  | fileNotFound
  | valueError (msg : List Char)
  | typeError
deriving DecidableEq

/-- Message of the `ValueError` raised on `json.JSONDecodeError`
(content_generator.py line 95). -/
def jsonFormatMsg : List Char :=
  ("The AI model returned an unexpected format. Please try again.").data

/-- Message of the `ValueError` raised on pydantic `ValidationError`
(content_generator.py line 98). -/
def validationFailedMsg : List Char :=
  ("The generated content did not pass pedagogical validation. Please try again.").data

/-- The error component of an orchestrator-stage result. -/
def exceptErr {α : Type} (r : Except PyErr α) : Option PyErr :=
  match r with
  | .error e => some e
  | .ok _ => none

/-- Steps 4 of `generate_activity` (lines 90-98): `json.loads` then
`ContentModel(**content_data)`, with `json.JSONDecodeError` mapped to one
fixed `ValueError` message and pydantic `ValidationError` (which covers
both field-level schema failures and the `ValueError`s raised by the
domain validators, including `model_post_init`) mapped to another. -/
def validateCandidate (clean_json : List Char) : Except PyErr ContentModel :=
  match parseJson clean_json with
  | none => .error (.valueError jsonFormatMsg)
  | some (JsonVal.obj fs) =>
    match contentFromFields fs with
    | none => .error (.valueError validationFailedMsg)
    | some m => .ok m
  | some _ => .error .typeError

/-! ### Configuration models (backend/models/config_models.py)

The raw config document is modelled as an already-type-correct record (the
pydantic type layer of `PromptConfig(**config_dict)` is not re-modelled;
documents failing it take the same `ValueError` path as constraint
failures).  The float-valued options (`temperature`, `top_p`, the Bloom
distribution) and `created_at`/`few_shot_examples`/`validation_rules` are
not modelled: no modelled code path reads them. -/

/-- `Tense` enum. -/
inductive Tense where
  | present
  | past
  | future
  | imperative
  | infinitive
deriving DecidableEq

/-- `Binyan` enum. -/
inductive Binyan where
  | paal
  | nifal
  | piel
  | pual
  | hifil
  | hufal
  | hitpael
deriving DecidableEq

/-- `GenderForm` enum. -/
inductive GenderForm where
  | masculine
  | feminine
  | pluralMasculine
  | pluralFeminine
deriving DecidableEq

/-- `MorphologicalConstraints` from config_models.py. -/
structure MorphologicalConstraints where
  allowed_tenses : List Tense
  allowed_binyanim : List Binyan
  max_sentence_length : Int
  niqqud_required : Bool
  allowed_gender_forms : Option (List GenderForm) := none
deriving DecidableEq

/-- `GenerationConfig` (integer-valued fields). -/
structure GenerationConfig where
  max_output_tokens : Int := 2048
  top_k : Int := 40
deriving DecidableEq

/-- `PromptConfig` from config_models.py. -/
structure PromptConfig where
  level : List Char
  version : List Char
  author : Option (List Char) := none
  description : Option (List Char) := none
  morphological_constraints : MorphologicalConstraints
  system_prompt_template : List Char
  vocabulary_whitelist : Option (List (List Char)) := none
  generation_config : Option GenerationConfig := none
deriving DecidableEq

/-- The template placeholder `\x7b\x7b topic \x7d\x7d` (with inner
spaces). -/
def phTopicSpaced : List Char := ("\x7b\x7b topic \x7d\x7d").data

/-- The template placeholder `\x7b\x7btopic\x7d\x7d` (no inner spaces). -/
def phTopicTight : List Char := ("\x7b\x7btopic\x7d\x7d").data

/-- The template placeholder `\x7b\x7b level \x7d\x7d` (with inner
spaces). -/
def phLevelSpaced : List Char := ("\x7b\x7b level \x7d\x7d").data

/-- The template placeholder `\x7b\x7blevel\x7d\x7d` (no inner spaces). -/
def phLevelTight : List Char := ("\x7b\x7blevel\x7d\x7d").data

/-- Python's substring operator `in`. -/
def isSubstring (p s : List Char) : Bool := decide (p <:+: s)

/-- `PromptConfig.validate_template_has_topic`: the template must contain
the topic placeholder in spaced or tight form. -/
def hasTopicPlaceholder (t : List Char) : Bool :=
  isSubstring phTopicSpaced t || isSubstring phTopicTight t

/-- The regex `^\d+\.\d+\.\d+$` constraining `version`. -/
def versionPattern (s : List Char) : Bool :=
  match s.splitOn '.' with
  | [a, b, c] => !a.isEmpty && a.all Char.isDigit && !b.isEmpty && b.all Char.isDigit
      && !c.isEmpty && c.all Char.isDigit
  | _ => false

/-- Declared bounds of `MorphologicalConstraints` (non-empty enum lists,
`5 <= max_sentence_length <= 30`). -/
def morphConstraintsValid (m : MorphologicalConstraints) : Bool :=
  !m.allowed_tenses.isEmpty && !m.allowed_binyanim.isEmpty
    && decide (5 ≤ m.max_sentence_length ∧ m.max_sentence_length ≤ 30)

/-- Declared bounds of `GenerationConfig`'s integer fields. -/
def generationConfigValid (g : GenerationConfig) : Bool :=
  decide (100 ≤ g.max_output_tokens ∧ g.max_output_tokens ≤ 8192
    ∧ 1 ≤ g.top_k ∧ g.top_k ≤ 100)

/-- Load-time validation performed by `PromptConfig(**config_dict)`: field
patterns and bounds plus the topic-placeholder validator.  The pydantic
field validators return their input unchanged, so a valid document is
returned as-is. -/
def promptConfigValid (c : PromptConfig) : Bool :=
  cefrPattern c.level && versionPattern c.version
    && morphConstraintsValid c.morphological_constraints
    && decide (50 ≤ c.system_prompt_template.length)
    && hasTopicPlaceholder c.system_prompt_template
    && (match c.generation_config with
        | none => true
        | some g => generationConfigValid g)

/-! ### Prompt manager (backend/services/prompt_manager.py) -/

/-- The mutable state of a `PromptManager`: its `_config_cache` dict,
newest entry first. -/
structure PromptManagerState where
  cache : List (List Char × PromptConfig)
deriving DecidableEq

/-- `cache_key = f"(level)_(variant)"` (prompt_manager.py line 90, braces
elided). -/
def cacheKey (level variant : List Char) : List Char :=
  level ++ '_' :: variant

/-- A config source's `load_config`, abstracted over the backing store
(file tree or Firestore): `none` models the `FileNotFoundError` of a
missing document, `some doc` a successfully loaded, type-correct
document. -/
def ConfigSource : Type := List Char → List Char → Option PromptConfig

/-- `PromptManager.get_config`, instrumented: returns the result, the new
cache state, the number of source loads performed and the number of
validations performed.  On a cache hit the memoized config is returned with
no load and no validation; on a miss the document is loaded, validated
(failures become `ValueError`), stored and returned. -/
def get_config (src : ConfigSource) (st : PromptManagerState)
    (level variant : List Char) (use_cache : Bool) :
    Except PyErr PromptConfig × PromptManagerState × Nat × Nat :=
  let key := cacheKey level variant
  match use_cache, st.cache.lookup key with
  | true, some c => (.ok c, st, 0, 0)
  | _, _ =>
    match src level variant with
    | none => (.error .fileNotFound, st, 1, 0)
    | some doc =>
      if promptConfigValid doc then
        (.ok doc, ⟨(key, doc) :: st.cache⟩, 1, 1)
      else
        (.error (.valueError (("Invalid prompt configuration").data)), st, 1, 1)

/-- Jinja2 variable interpolation over the context
`(topic := topic, level := level)` built by
`PromptManager.render_system_prompt`: a left-to-right scan replacing each
placeholder occurrence with the corresponding value (substituted values are
not rescanned).  Control-flow template constructs are outside the model;
the spec (§4.2) specifies the renderer as pure text substitution with
variable interpolation. -/
def renderAux (topic level : List Char) : Nat → List Char → List Char
  | 0, s => s
  | _ + 1, [] => []
  | fuel + 1, c :: rest =>
    if phTopicSpaced.isPrefixOf (c :: rest) then
      topic ++ renderAux topic level fuel ((c :: rest).drop phTopicSpaced.length)
    else if phTopicTight.isPrefixOf (c :: rest) then
      topic ++ renderAux topic level fuel ((c :: rest).drop phTopicTight.length)
    else if phLevelSpaced.isPrefixOf (c :: rest) then
      level ++ renderAux topic level fuel ((c :: rest).drop phLevelSpaced.length)
    else if phLevelTight.isPrefixOf (c :: rest) then
      level ++ renderAux topic level fuel ((c :: rest).drop phLevelTight.length)
    else c :: renderAux topic level fuel rest

/-- `Template(config.system_prompt_template).render(topic=..., level=...)`. -/
def render (topic level s : List Char) : List Char :=
  renderAux topic level s.length s

/-- `PromptManager.render_system_prompt`: resolve the config (through the
cache) and render its template with the caller's topic and level. -/
def render_system_prompt (src : ConfigSource) (st : PromptManagerState)
    (level topic variant : List Char) :
    Except PyErr (List Char) × PromptManagerState :=
  match get_config src st level variant true with
  | (.error e, st1, _, _) => (.error e, st1)
  | (.ok c, st1, _, _) => (.ok (render topic level c.system_prompt_template), st1)

/-! ### Request model (backend/models/request_models.py) -/

/-- `GenerateActivityRequest` (the opaque `user_preferences` dict is not
modelled: no modelled code path reads it). -/
structure GenerateActivityRequest where
  topic : List Char
  level : List Char
  variant : List Char
deriving DecidableEq

/-- The `dangerous_patterns` list of `sanitize_topic`. -/
def dangerousPatterns : List (List Char) :=
  [("ignore").data, ("system:").data, ("assistant:").data, ("###").data,
   ("```").data, ("forget").data, ("disregard").data, ("instead").data]

/-- The allow-list of `validate_supported_level`:
`supported = ["A1", "A2", "B1"]`. -/
def supportedLevels : List (List Char) :=
  [("A1").data, ("A2").data, ("B1").data]

/-- Pydantic construction of a `GenerateActivityRequest`: the raw topic's
length bounds, then `sanitize_topic` (injection patterns checked on the
lower-cased raw topic; the stored topic is the stripped raw topic), then
the `level` pattern and `validate_supported_level`; `variant` defaults to
`"default"`. -/
def mkGenerateActivityRequest (topic level : List Char)
    (variant : Option (List Char)) : Option GenerateActivityRequest :=
  (ensure (2 ≤ topic.length ∧ topic.length ≤ 100)).bind fun _ =>
  (ensure ((dangerousPatterns.all fun p => !(isSubstring p (pyLower topic))) = true)).bind fun _ =>
  (ensure (cefrPattern level = true)).bind fun _ =>
  (ensure (level ∈ supportedLevels)).bind fun _ =>
  some ⟨pyStrip topic, level, variant.getD (("default").data)⟩

/-! ### Response model and orchestrator -/

/-- `ActivityResponse` from backend/models/response_models.py, with its
pydantic field defaults. -/
structure ActivityResponse where
  success : Bool := true
  data : ContentModel
  generation_time_ms : Option Int := none
  cached : Bool := false
  metadata : Option (List (List Char × List Char)) := none

/-- Lines 53-60 of `generate_activity`: the max-token budget passed to the
model client.  `if max_tokens and max_tokens < 4096: max_tokens = 4096` —
a `None` (or zero, by Python truthiness) budget is left unchanged. -/
def effectiveMaxTokens (mt : Option Int) : Option Int :=
  match mt with
  | none => none
  | some n => if n ≠ 0 ∧ n < 4096 then some 4096 else some n

/-- `ContentGenerator.generate_activity` (content_generator.py lines
26-113).  The Vertex AI client is abstracted as a function from the
rendered prompt and token budget to the raw response text (its transport
failures are outside the modelled paths), and the wall-clock duration is a
parameter.  Steps: resolve the config, render the system prompt (which
re-resolves the config through the cache), apply the token-budget floor,
call the client, extract the JSON candidate, validate it, and wrap the
result — leaving `cached` at its field default. -/
def generate_activity (src : ConfigSource)
    (client : List Char → Option Int → List Char)
    (st : PromptManagerState) (durationMs : Int)
    (req : GenerateActivityRequest) :
    Except PyErr ActivityResponse × PromptManagerState :=
  match get_config src st req.level req.variant true with
  | (.error e, st1, _, _) => (.error e, st1)
  | (.ok config, st1, _, _) =>
    match render_system_prompt src st1 req.level req.topic req.variant with
    | (.error e, st2) => (.error e, st2)
    | (.ok system_prompt, st2) =>
      let max_tokens := effectiveMaxTokens
        (config.generation_config.map fun g => g.max_output_tokens)
      let raw_response := client system_prompt max_tokens
      let clean_json := extract_json raw_response
      match validateCandidate clean_json with
      | .error e => (.error e, st2)
      | .ok m =>
        (.ok { data := m
               generation_time_ms := some durationMs
               metadata := some [((("level").data), req.level),
                                 ((("variant").data), req.variant),
                                 ((("version").data), config.version)] }, st2)

/-! ### Statement helpers and concrete fixtures -/

/-- The fields of a parsed JSON object, when the value is an object. -/
def objFieldsOfJson : Option JsonVal → Option (List (List Char × JsonVal))
  | some (JsonVal.obj fs) => some fs
  | _ => none

/-- Whether a list of characters could be the start of a double-brace
sequence once an arbitrary continuation is appended: it is empty, is
exactly an opening brace, or begins with two opening braces.  Used to show
that placeholder occurrences cannot overlap. -/
def canStartDoubleBrace (a : List Char) : Bool :=
  match a with
  | [] => true
  | [c] => c == lbrace
  | c1 :: c2 :: _ => c1 == lbrace && c2 == lbrace

/-- Every config a `PromptManager` ever caches went through
`PromptConfig(**config_dict)`, so it satisfies the topic-placeholder
validator; this is the reachable-state invariant of `_config_cache`. -/
def cacheConfigsValidated (st : PromptManagerState) : Prop :=
  ∀ p ∈ st.cache, hasTopicPlaceholder p.2.system_prompt_template = true

/-- A concrete valid B1 prompt-config document. -/
def exampleConfigB1 : PromptConfig :=
  { level := ("B1").data
    version := ("1.0.0").data
    morphological_constraints :=
      { allowed_tenses := [.present, .past]
        allowed_binyanim := [.paal]
        max_sentence_length := 12
        niqqud_required := false }
    system_prompt_template :=
      ("Create a \x7b\x7b topic \x7d\x7d activity for level \x7b\x7b level \x7d\x7d. Make it engaging and fun.").data }

/-- A concrete config source holding only the B1/default document. -/
def exampleSource : ConfigSource := fun l v =>
  if l = ("B1").data ∧ v = ("default").data then some exampleConfigB1 else none

/-- A structurally and pedagogically valid B1 activity payload: ids 1,2,3,
three distinct cognitive levels. -/
def exampleJsonB1 : List Char :=
  ("\x7b\"title_hebrew\": \"חיות בבית\", \"cefr_level\": \"B1\", \"text_content\": \"הכלב רץ בגינה עם הילדים בבוקר. החתול ישן על הספה בבית. הציפור שרה שיר יפה.\", \"vocabulary_list\": [\x7b\"hebrew\": \"כלב\", \"english\": \"dog\"\x7d, \x7b\"hebrew\": \"חתול\", \"english\": \"cat\"\x7d, \x7b\"hebrew\": \"ציפור\", \"english\": \"bird\"\x7d], \"questions\": [\x7b\"id\": 1, \"stem_hebrew\": \"מי רץ בגינה?\", \"options\": [\"הכלב\", \"החתול\", \"הציפור\", \"הילד\"], \"correct_answer_index\": 0, \"explanation\": \"כתוב שהכלב רץ בגינה בבוקר.\", \"cognitive_level\": \"Remembering\"\x7d, \x7b\"id\": 2, \"stem_hebrew\": \"איפה ישן החתול?\", \"options\": [\"על הספה\", \"בגינה\", \"על הגג\", \"במטבח\"], \"correct_answer_index\": 0, \"explanation\": \"כתוב שהחתול ישן על הספה.\", \"cognitive_level\": \"Understanding\"\x7d, \x7b\"id\": 3, \"stem_hebrew\": \"מה עשתה הציפור?\", \"options\": [\"שרה שיר\", \"רצה\", \"ישנה\", \"אכלה\"], \"correct_answer_index\": 0, \"explanation\": \"כתוב שהציפור שרה שיר יפה.\", \"cognitive_level\": \"Applying\"\x7d]\x7d").data

/-- The same activity with the question objects listed in the id order
2, 1, 3: the id multiset is (1, 2, 3) but the sequence as given is a
non-identity permutation. -/
def exampleJsonPermIds : List Char :=
  ("\x7b\"title_hebrew\": \"חיות בבית\", \"cefr_level\": \"B1\", \"text_content\": \"הכלב רץ בגינה עם הילדים בבוקר. החתול ישן על הספה בבית. הציפור שרה שיר יפה.\", \"vocabulary_list\": [\x7b\"hebrew\": \"כלב\", \"english\": \"dog\"\x7d, \x7b\"hebrew\": \"חתול\", \"english\": \"cat\"\x7d, \x7b\"hebrew\": \"ציפור\", \"english\": \"bird\"\x7d], \"questions\": [\x7b\"id\": 2, \"stem_hebrew\": \"מי רץ בגינה?\", \"options\": [\"הכלב\", \"החתול\", \"הציפור\", \"הילד\"], \"correct_answer_index\": 0, \"explanation\": \"כתוב שהכלב רץ בגינה בבוקר.\", \"cognitive_level\": \"Remembering\"\x7d, \x7b\"id\": 1, \"stem_hebrew\": \"איפה ישן החתול?\", \"options\": [\"על הספה\", \"בגינה\", \"על הגג\", \"במטבח\"], \"correct_answer_index\": 0, \"explanation\": \"כתוב שהחתול ישן על הספה.\", \"cognitive_level\": \"Understanding\"\x7d, \x7b\"id\": 3, \"stem_hebrew\": \"מה עשתה הציפור?\", \"options\": [\"שרה שיר\", \"רצה\", \"ישנה\", \"אכלה\"], \"correct_answer_index\": 0, \"explanation\": \"כתוב שהציפור שרה שיר יפה.\", \"cognitive_level\": \"Applying\"\x7d]\x7d").data

/-- The same activity with all three questions tagged `Remembering`: it
passes every structural (presence/type/bounds) check and fails only the
degenerate-cognitive-level cross-field rule — a pure
domain-invariant violation in the spec's taxonomy. -/
def exampleJsonAllRemembering : List Char :=
  ("\x7b\"title_hebrew\": \"חיות בבית\", \"cefr_level\": \"B1\", \"text_content\": \"הכלב רץ בגינה עם הילדים בבוקר. החתול ישן על הספה בבית. הציפור שרה שיר יפה.\", \"vocabulary_list\": [\x7b\"hebrew\": \"כלב\", \"english\": \"dog\"\x7d, \x7b\"hebrew\": \"חתול\", \"english\": \"cat\"\x7d, \x7b\"hebrew\": \"ציפור\", \"english\": \"bird\"\x7d], \"questions\": [\x7b\"id\": 1, \"stem_hebrew\": \"מי רץ בגינה?\", \"options\": [\"הכלב\", \"החתול\", \"הציפור\", \"הילד\"], \"correct_answer_index\": 0, \"explanation\": \"כתוב שהכלב רץ בגינה בבוקר.\", \"cognitive_level\": \"Remembering\"\x7d, \x7b\"id\": 2, \"stem_hebrew\": \"איפה ישן החתול?\", \"options\": [\"על הספה\", \"בגינה\", \"על הגג\", \"במטבח\"], \"correct_answer_index\": 0, \"explanation\": \"כתוב שהחתול ישן על הספה.\", \"cognitive_level\": \"Remembering\"\x7d, \x7b\"id\": 3, \"stem_hebrew\": \"מה עשתה הציפור?\", \"options\": [\"שרה שיר\", \"רצה\", \"ישנה\", \"אכלה\"], \"correct_answer_index\": 0, \"explanation\": \"כתוב שהציפור שרה שיר יפה.\", \"cognitive_level\": \"Remembering\"\x7d]\x7d").data

/-- A candidate that parses as a JSON object but is missing required
fields: a pure schema violation in the spec's taxonomy. -/
def exampleJsonMissingFields : List Char :=
  ("\x7b\"cefr_level\": \"B1\"\x7d").data

/-- A raw model response wrapping the valid payload in prose. -/
def exampleRawResponse : List Char :=
  ("Here is the activity: ").data ++ exampleJsonB1 ++ (" Enjoy!").data

/-- A model client replaying the concrete response. -/
def exampleClient : List Char → Option Int → List Char := fun _ _ =>
  exampleRawResponse

/-- A concrete accepted request. -/
def exampleRequestB1 : GenerateActivityRequest :=
  ⟨("Dogs").data, ("B1").data, ("default").data⟩

/-- An A1 candidate, already parsed to its field list, that is valid in
every respect except that its `text_content` carries no niqqud marks at
all. -/
def exampleA1NoNiqqudFields : List (List Char × JsonVal) :=
  [((("title_hebrew").data), .str (("חיות בבית").data)),
   ((("cefr_level").data), .str (("A1").data)),
   ((("text_content").data), .str (("הכלב רץ בגינה עם הילדים בבוקר. החתול ישן על הספה בבית. הציפור שרה שיר יפה.").data)),
   ((("vocabulary_list").data), .arr
      [.obj [((("hebrew").data), .str (("כלב").data)), ((("english").data), .str (("dog").data))],
       .obj [((("hebrew").data), .str (("חתול").data)), ((("english").data), .str (("cat").data))],
       .obj [((("hebrew").data), .str (("ציפור").data)), ((("english").data), .str (("bird").data))]]),
   ((("questions").data), .arr
      [.obj [((("id").data), .num 1),
             ((("stem_hebrew").data), .str (("מי רץ בגינה?").data)),
             ((("options").data), .arr [.str (("הכלב").data), .str (("החתול").data), .str (("הציפור").data), .str (("הילד").data)]),
             ((("correct_answer_index").data), .num 0),
             ((("explanation").data), .str (("כתוב שהכלב רץ בגינה בבוקר.").data)),
             ((("cognitive_level").data), .str (("Remembering").data))],
       .obj [((("id").data), .num 2),
             ((("stem_hebrew").data), .str (("איפה ישן החתול?").data)),
             ((("options").data), .arr [.str (("על הספה").data), .str (("בגינה").data), .str (("על הגג").data), .str (("במטבח").data)]),
             ((("correct_answer_index").data), .num 0),
             ((("explanation").data), .str (("כתוב שהחתול ישן על הספה.").data)),
             ((("cognitive_level").data), .str (("Understanding").data))],
       .obj [((("id").data), .num 3),
             ((("stem_hebrew").data), .str (("מה עשתה הציפור?").data)),
             ((("options").data), .arr [.str (("שרה שיר").data), .str (("רצה").data), .str (("ישנה").data), .str (("אכלה").data)]),
             ((("correct_answer_index").data), .num 0),
             ((("explanation").data), .str (("כתוב שהציפור שרה שיר יפה.").data)),
             ((("cognitive_level").data), .str (("Applying").data))]])]

/-! ## Theorems -/

/-- An `ensure` step succeeds exactly when its condition holds. -/
theorem ensure_eq_some_iff {p : Prop} [Decidable p] {u : Unit} :
    ensure p = some u ↔ p := by
  unfold ensure
  split
  · simp [*]
  · simp [*]

/-- An `ensure` step under a true condition. -/
theorem ensure_pos {p : Prop} [Decidable p] (h : p) : ensure p = some () :=
  if_pos h

/-- A substring of a list is a substring of any left-extension of it. -/
theorem substring_extend_left {x y z : List Char} (h : x <:+: y) : x <:+: z ++ y := by
  obtain ⟨a, b, hab⟩ := h
  exact ⟨z ++ a, b, by rw [← hab]; simp⟩

/-- A substring of a list is a substring of the list with one more leading
element. -/
theorem substring_extend_cons {x y : List Char} (c : Char) (h : x <:+: y) :
    x <:+: c :: y :=
  substring_extend_left (z := [c]) h

/-- Claim C1: the spec mandates that braces inside JSON string literals are
not treated as structural, so that for every `prefix ++ balanced ++ suffix`
input the extractor returns the balanced object.  The source's
`extract_json` counts every brace: on the well-formed JSON object
input (empty prefix/suffix) whose only string value is a closing brace, it
returns a strict prefix of the object, cut at the brace inside the string
literal, instead of the object itself. -/
theorem claim_C1_extract_json_brace_in_string :
    (parseJson (("\x7b\"a\": \"\x7d\"\x7d").data)).isSome = true ∧
    extract_json (("\x7b\"a\": \"\x7d\"\x7d").data) = ("\x7b\"a\": \"\x7d").data ∧
    extract_json (("\x7b\"a\": \"\x7d\"\x7d").data) ≠ ("\x7b\"a\": \"\x7d\"\x7d").data := by
  refine ⟨by decide, by decide, by decide⟩

/-- Claim C8 (amended): a configured budget below 4096 is raised to 4096
and a budget at or above 4096 passes through unchanged, but an unset
budget is passed through as unset rather than raised — `if max_tokens and
max_tokens < 4096` is false for `None`. -/
theorem claim_C8_token_floor :
    (∀ n : Int, 100 ≤ n → n < 4096 → effectiveMaxTokens (some n) = some 4096) ∧
    (∀ n : Int, 4096 ≤ n → effectiveMaxTokens (some n) = some n) ∧
    effectiveMaxTokens none = none := by
  refine ⟨?_, ?_, rfl⟩
  · intro n h100 hlt
    simp only [effectiveMaxTokens]
    rw [if_pos ⟨by omega, hlt⟩]
  · intro n hge
    simp only [effectiveMaxTokens]
    rw [if_neg (by omega)]

/-- Claim C8, counterexample: an unset generation budget is not raised to
the safe minimum — the orchestrator passes `None` through to the client. -/
theorem claim_C8_counterexample_unset_budget :
    effectiveMaxTokens none = none ∧ (none : Option Int) ≠ some 4096 :=
  ⟨rfl, by decide⟩

/-- Claim C8, witness: a concrete small budget is raised and a concrete
large budget passes through. -/
theorem claim_C8_witness :
    effectiveMaxTokens (some 2048) = some 4096 ∧
    effectiveMaxTokens (some 8192) = some 8192 :=
  ⟨claim_C8_token_floor.1 2048 (by decide) (by decide),
   claim_C8_token_floor.2.1 8192 (by decide)⟩

/-- Claim C9: every `ActivityResponse` produced by `generate_activity` has
`cached = false` — the constructor call never sets the field, so the
pydantic default applies, even when the config was served from the cache. -/
theorem claim_C9_cached_always_false :
    ∀ src client st d req,
      ((generate_activity src client st d req).1.toOption.all fun r => !r.cached) = true := by
  intro src client st d req
  unfold generate_activity
  split
  · rfl
  · split
    · rfl
    · simp only []
      split
      · rfl
      · rfl

/-- Claim C10: an accepted request stores the caller's topic stripped of
surrounding whitespace, while the 2-character minimum is checked on the raw
topic; the concrete raw topic consisting of a space and one letter is
accepted and stored as a single-character topic. -/
theorem claim_C10_topic_stored_stripped :
    (∀ topic level variant r,
        mkGenerateActivityRequest topic level variant = some r →
        r.topic = pyStrip topic ∧ 2 ≤ topic.length) ∧
    (mkGenerateActivityRequest ((" a").data) (("A1").data) none).map
        GenerateActivityRequest.topic = some (("a").data) := by
  constructor
  · intro topic level variant r h
    unfold mkGenerateActivityRequest at h
    simp only [Option.bind_eq_some, ensure_eq_some_iff, Option.some.injEq] at h
    obtain ⟨_, ⟨hlen, -⟩, _, -, _, -, _, -, hr⟩ := h
    exact ⟨by rw [← hr], hlen⟩
  · rfl

/-- Claim C10, witness: the raw topic of length 2 is accepted and its
stored form is the 1-character strip. -/
theorem claim_C10_witness :
    pyStrip ((" a").data) = ("a").data ∧ 2 ≤ ((" a").data).length := by
  have h := claim_C10_topic_stored_stripped.1 ((" a").data) (("A1").data) none
    ⟨("a").data, ("A1").data, ("default").data⟩ (by rfl)
  exact ⟨h.1.symm, h.2⟩

/-- Claim C6: a second `get_config` call for the same key on the state
left by a successful first call returns the identical memoized config,
leaves the state unchanged, and performs no source load and no
re-validation. -/
theorem claim_C6_cache_hit :
    ∀ src st level variant c st1 n v,
      get_config src st level variant true = (.ok c, st1, n, v) →
      get_config src st1 level variant true = (.ok c, st1, 0, 0) := by
  intro src st level variant c st1 n v h
  unfold get_config at h ⊢
  cases hl : st.cache.lookup (cacheKey level variant) with
  | some c0 =>
    simp only [hl, Prod.mk.injEq, Except.ok.injEq] at h
    obtain ⟨hc, hst, -, -⟩ := h
    subst hc
    rw [← hst]
    simp only [hl]
  | none =>
    simp only [hl] at h
    cases hs : src level variant with
    | none => simp [hs] at h
    | some doc =>
      simp only [hs] at h
      by_cases hv : promptConfigValid doc = true
      · rw [if_pos hv] at h
        simp only [Prod.mk.injEq, Except.ok.injEq] at h
        obtain ⟨hc, hst, -, -⟩ := h
        subst hc
        rw [← hst]
        simp [List.lookup_cons_self]
      · rw [if_neg hv] at h
        simp at h

/-- Claim C6, witness: on the state produced by a successful load of the
concrete B1 config, the repeat call is a pure cache hit. -/
theorem claim_C6_witness :
    get_config exampleSource
        ⟨[(cacheKey (("B1").data) (("default").data), exampleConfigB1)]⟩
        (("B1").data) (("default").data) true
      = (.ok exampleConfigB1,
         ⟨[(cacheKey (("B1").data) (("default").data), exampleConfigB1)]⟩, 0, 0) :=
  claim_C6_cache_hit exampleSource ⟨[]⟩ (("B1").data) (("default").data)
    exampleConfigB1
    ⟨[(cacheKey (("B1").data) (("default").data), exampleConfigB1)]⟩ 1 1 (by rfl)

/-- Claim C7: a level outside the fixed allow-list `["A1", "A2", "B1"]` is
rejected at request construction (before the orchestrator, and hence any
config resolution, can run), while an allow-listed level with a clean topic
is accepted. -/
theorem claim_C7_level_allowlist :
    (∀ topic level variant, level ∉ supportedLevels →
        mkGenerateActivityRequest topic level variant = none) ∧
    (∀ topic level variant, level ∈ supportedLevels →
        2 ≤ topic.length → topic.length ≤ 100 →
        (dangerousPatterns.all fun p => !(isSubstring p (pyLower topic))) = true →
        (mkGenerateActivityRequest topic level variant).isSome = true) := by
  constructor
  · intro topic level variant hmem
    by_contra hne
    obtain ⟨r, hr⟩ := Option.ne_none_iff_exists'.mp hne
    simp only [mkGenerateActivityRequest, Option.bind_eq_some, ensure_eq_some_iff] at hr
    exact hmem (by tauto)
  · intro topic level variant hmem h2 h100 hall
    have hpat : cefrPattern level = true := by
      simp only [supportedLevels, List.mem_cons, List.not_mem_nil, or_false] at hmem
      rcases hmem with h | h | h <;> subst h <;> decide
    unfold mkGenerateActivityRequest
    rw [ensure_pos ⟨h2, h100⟩, ensure_pos hall, ensure_pos hpat, ensure_pos hmem]
    rfl

/-- Claim C7, witness: level C1 (pattern-valid but not allow-listed) is
rejected; level A1 with a clean topic is accepted. -/
theorem claim_C7_witness :
    mkGenerateActivityRequest (("Soccer").data) (("C1").data) none = none ∧
    (mkGenerateActivityRequest (("Soccer").data) (("A1").data) none).isSome = true :=
  ⟨claim_C7_level_allowlist.1 (("Soccer").data) (("C1").data) none (by decide),
   claim_C7_level_allowlist.2 (("Soccer").data) (("A1").data) none (by decide)
     (by decide) (by decide) (by decide)⟩

/-- Claim C4: for an elementary-level (A1/A2) candidate whose text has
fewer than 10 niqqud marks, `ContentModel` construction fails outright,
whatever the rest of the payload looks like; for any other level the text
check demands only the Hebrew-script requirement, no niqqud count. -/
theorem claim_C4_niqqud_gate :
    (∀ fs lvl txt, reqStr fs (("cefr_level").data) = some lvl →
        isElementaryLevel lvl = true →
        reqStr fs (("text_content").data) = some txt →
        countNiqqud txt < 10 →
        contentFromFields fs = none) ∧
    (∀ lvl txt, isElementaryLevel lvl = false →
        textContentOk lvl txt = hasHebrew txt) := by
  constructor
  · intro fs lvl txt hlvl helem htxt hcount
    by_contra hne
    obtain ⟨m, hm⟩ := Option.ne_none_iff_exists'.mp hne
    unfold contentFromFields at hm
    rcases Option.bind_eq_some.mp hm with ⟨title, hTitle, hm⟩
    rcases Option.bind_eq_some.mp hm with ⟨u1, hu1, hm⟩
    rcases Option.bind_eq_some.mp hm with ⟨lvl', hLvl', hm⟩
    rcases Option.bind_eq_some.mp hm with ⟨u2, hu2, hm⟩
    rcases Option.bind_eq_some.mp hm with ⟨txt', hTxt', hm⟩
    rcases Option.bind_eq_some.mp hm with ⟨u3, hu3, hm⟩
    rcases Option.bind_eq_some.mp hm with ⟨u4, hu4, hm⟩
    have htc := ensure_eq_some_iff.mp hu4
    have hl2 : lvl' = lvl := Option.some.inj (hLvl'.symm.trans hlvl)
    have ht2 : txt' = txt := Option.some.inj (hTxt'.symm.trans htxt)
    rw [hl2, ht2] at htc
    have hfalse : textContentOk lvl txt = false := by
      simp [textContentOk, helem, decide_eq_false (by omega : ¬ 10 ≤ countNiqqud txt)]
    exact Bool.false_ne_true (hfalse.symm.trans htc)
  · intro lvl txt h
    simp [textContentOk, h]

/-- Claim C4, witness: the concrete A1 payload that is valid in every other
respect but has zero niqqud marks is rejected as a whole. -/
theorem claim_C4_witness :
    contentFromFields exampleA1NoNiqqudFields = none :=
  claim_C4_niqqud_gate.1 exampleA1NoNiqqudFields (("A1").data)
    (("הכלב רץ בגינה עם הילדים בבוקר. החתול ישן על הספה בבית. הציפור שרה שיר יפה.").data)
    (by rfl) (by decide) (by rfl) (by decide)

/-- Claim C5 (amended): a caller of `generate_activity` can distinguish
only two validation-failure kinds, not three — a candidate that does not
parse yields the fixed malformed-format `ValueError`, while every candidate
that parses as an object and fails `ContentModel` validation (whether by a
structural schema violation or by a domain-invariant violation) yields one
and the same pedagogical-validation `ValueError`. -/
theorem claim_C5_two_error_kinds :
    (∀ s, parseJson s = none →
        validateCandidate s = .error (.valueError jsonFormatMsg)) ∧
    (∀ s fs, objFieldsOfJson (parseJson s) = some fs →
        contentFromFields fs = none →
        validateCandidate s = .error (.valueError validationFailedMsg)) := by
  constructor
  · intro s h
    unfold validateCandidate
    rw [h]
  · intro s fs hobj hnone
    cases hp : parseJson s with
    | none => rw [hp] at hobj; simp [objFieldsOfJson] at hobj
    | some v =>
      rw [hp] at hobj
      cases v with
      | obj fs2 =>
        simp only [objFieldsOfJson, Option.some.injEq] at hobj
        subst hobj
        simp [validateCandidate, hp, hnone]
      | str s2 => simp [objFieldsOfJson] at hobj
      | num n2 => simp [objFieldsOfJson] at hobj
      | bool b2 => simp [objFieldsOfJson] at hobj
      | null => simp [objFieldsOfJson] at hobj
      | arr xs2 => simp [objFieldsOfJson] at hobj

/-- Claim C5, counterexample: a missing-fields candidate (a schema
violation — it fails the spec's structural layer) and an all-`Remembering`
candidate (a domain violation — it passes the structural layer and fails
only the cross-field cognitive-level rule) surface to the caller as
literally the same error value, so the three spec kinds are not mutually
distinguished. -/
theorem claim_C5_counterexample_merged_kinds :
    ((objFieldsOfJson (parseJson exampleJsonMissingFields)).map specStructuralSchemaOk)
        = some false ∧
    ((objFieldsOfJson (parseJson exampleJsonAllRemembering)).map specStructuralSchemaOk)
        = some true ∧
    exceptErr (validateCandidate exampleJsonMissingFields)
        = some (.valueError validationFailedMsg) ∧
    exceptErr (validateCandidate exampleJsonAllRemembering)
        = some (.valueError validationFailedMsg) ∧
    exceptErr (validateCandidate exampleJsonMissingFields)
        = exceptErr (validateCandidate exampleJsonAllRemembering) ∧
    jsonFormatMsg ≠ validationFailedMsg := by
  refine ⟨by decide, by decide, by decide, by decide, by decide, by decide⟩

/-- Claim C5, witness: the two observable kinds at concrete inputs — an
unparseable candidate and an object candidate failing validation. -/
theorem claim_C5_witness :
    validateCandidate (("not json").data) = .error (.valueError jsonFormatMsg) ∧
    validateCandidate exampleJsonMissingFields
      = .error (.valueError validationFailedMsg) :=
  ⟨claim_C5_two_error_kinds.1 (("not json").data) (by rfl),
   claim_C5_two_error_kinds.2 exampleJsonMissingFields
     [((("cefr_level").data), .str (("B1").data))] (by rfl) (by rfl)⟩

/-- The expected-id sequence 1..n is sorted. -/
theorem sorted_expectedIds (n : Nat) :
    List.Sorted (fun a b : Int => a ≤ b) (expectedIds n) := by
  unfold expectedIds
  exact List.Pairwise.map Int.ofNat
    (fun a b hab => by
      show Int.ofNat a ≤ Int.ofNat b
      exact Int.ofNat_le.mpr (Nat.le_of_lt hab))
    (List.pairwise_lt_range' 1 n)

/-- Claim C2 (amended): the sequential-id check passes exactly when the
ids, as a multiset, are a permutation of 1..N — the code sorts before
comparing, so a gap or duplicate fails but a permuted *order* passes; and
every successfully constructed `ContentModel` satisfies the check. -/
theorem claim_C2_sequential_ids :
    (∀ ids : List Int, checkSequentialIds ids ↔ ids.Perm (expectedIds ids.length)) ∧
    (∀ fs m, contentFromFields fs = some m →
        checkSequentialIds (m.questions.map Question.id)) := by
  constructor
  · intro ids
    haveI hTot : IsTotal Int fun a b : Int => a ≤ b := ⟨fun a b => le_total a b⟩
    haveI hTrans : IsTrans Int fun a b : Int => a ≤ b := ⟨fun _ _ _ => le_trans⟩
    haveI hAnti : IsAntisymm Int fun a b : Int => a ≤ b := ⟨fun _ _ => le_antisymm⟩
    constructor
    · intro h
      unfold checkSequentialIds at h
      exact h ▸ (List.perm_insertionSort _ ids).symm
    · intro h
      unfold checkSequentialIds
      exact List.eq_of_perm_of_sorted ((List.perm_insertionSort _ ids).trans h)
        (List.sorted_insertionSort _ ids) (sorted_expectedIds ids.length)
  · intro fs m h
    unfold contentFromFields at h
    rcases Option.bind_eq_some.mp h with ⟨title, hTitle, h⟩
    rcases Option.bind_eq_some.mp h with ⟨u1, hu1, h⟩
    rcases Option.bind_eq_some.mp h with ⟨lvl, hLvl, h⟩
    rcases Option.bind_eq_some.mp h with ⟨u2, hu2, h⟩
    rcases Option.bind_eq_some.mp h with ⟨txt, hTxt, h⟩
    rcases Option.bind_eq_some.mp h with ⟨u3, hu3, h⟩
    rcases Option.bind_eq_some.mp h with ⟨u4, hu4, h⟩
    rcases Option.bind_eq_some.mp h with ⟨vocJ, hVocJ, h⟩
    rcases Option.bind_eq_some.mp h with ⟨u5, hu5, h⟩
    rcases Option.bind_eq_some.mp h with ⟨voc, hVoc, h⟩
    rcases Option.bind_eq_some.mp h with ⟨qsJ, hQsJ, h⟩
    rcases Option.bind_eq_some.mp h with ⟨u6, hu6, h⟩
    rcases Option.bind_eq_some.mp h with ⟨qs, hQs, h⟩
    rcases Option.bind_eq_some.mp h with ⟨u7, hu7, h⟩
    rcases Option.bind_eq_some.mp h with ⟨u8, hu8, h⟩
    have hm := Option.some.inj h
    rw [← hm]
    exact ensure_eq_some_iff.mp hu8

/-- Claim C2, counterexample: a payload whose questions carry ids in the
order 2, 1, 3 — a non-identity permutation of 1..3 — is accepted by
validation, refuting "any permutation … fails". -/
theorem claim_C2_counterexample_permutation_accepted :
    ((validateCandidate exampleJsonPermIds).toOption.map
        fun m => m.questions.map Question.id) = some [2, 1, 3] := by
  decide

/-- Claim C2, witness: the permuted id list 2, 1, 3 passes the check and is
a permutation of 1..3. -/
theorem claim_C2_witness :
    checkSequentialIds [2, 1, 3] ∧ List.Perm [(2 : Int), 1, 3] (expectedIds 3) :=
  ⟨by decide, (claim_C2_sequential_ids.1 [2, 1, 3]).mp (by decide)⟩

/-- A non-empty list is not a substring of the empty list. -/
theorem not_substring_nil {x : List Char} (hx : x ≠ []) :
    ¬ (x <:+: ([] : List Char)) := by
  rintro ⟨pre, suf, h⟩
  have hlen := congrArg List.length h
  simp only [List.length_append, List.length_nil] at hlen
  exact hx (List.eq_nil_of_length_eq_zero (by omega))

/-- No suffix of the spaced level placeholder other than the whole
placeholder can begin a double-brace sequence. -/
theorem noInner_level_spaced :
    ∀ j, j < phLevelSpaced.length → 1 ≤ j →
      canStartDoubleBrace (phLevelSpaced.drop j) = false := by
  decide

/-- No suffix of the tight level placeholder other than the whole
placeholder can begin a double-brace sequence. -/
theorem noInner_level_tight :
    ∀ j, j < phLevelTight.length → 1 ≤ j →
      canStartDoubleBrace (phLevelTight.drop j) = false := by
  decide

/-- If `s` starts with the placeholder `ph`, and a double-brace-initial
pattern `phT` occurs in `s` at a non-zero position, then the occurrence
lies entirely past `ph`: occurrences cannot overlap, because no proper
suffix of `ph` can begin a double brace. -/
theorem occurrence_shift {ph phT pre suf t s : List Char}
    (hs : s = pre ++ (phT ++ suf)) (hpre : pre ≠ [])
    (hph : s = ph ++ t)
    (hT : ∃ u, phT = lbrace :: lbrace :: u)
    (hI : ∀ j, j < ph.length → 1 ≤ j → canStartDoubleBrace (ph.drop j) = false) :
    phT <:+: s.drop ph.length := by
  obtain ⟨u, hu⟩ := hT
  by_cases hk : ph.length ≤ pre.length
  · refine ⟨pre.drop ph.length, suf, ?_⟩
    rw [hs, List.drop_append_eq_append_drop, Nat.sub_eq_zero_of_le hk,
      List.drop_zero, List.append_assoc]
  · push_neg at hk
    exfalso
    have h1k : 1 ≤ pre.length := by
      cases pre with
      | nil => exact absurd rfl hpre
      | cons a as => simp
    have e1 : s.drop pre.length = phT ++ suf := by
      rw [hs, List.drop_append_eq_append_drop, List.drop_length, Nat.sub_self,
        List.drop_zero, List.nil_append]
    have e2 : s.drop pre.length = ph.drop pre.length ++ t := by
      rw [hph, List.drop_append_eq_append_drop,
        Nat.sub_eq_zero_of_le (Nat.le_of_lt hk), List.drop_zero]
    have e3 : ph.drop pre.length ++ t = lbrace :: lbrace :: (u ++ suf) := by
      rw [← e2, e1, hu]
      simp
    have hcs := hI pre.length hk h1k
    cases hd : ph.drop pre.length with
    | nil =>
      rw [List.drop_eq_nil_iff] at hd
      omega
    | cons x xs =>
      rw [hd] at e3
      cases xs with
      | nil =>
        simp only [List.cons_append, List.nil_append, List.cons.injEq] at e3
        rw [hd, e3.1] at hcs
        simp [canStartDoubleBrace] at hcs
      | cons y ys =>
        simp only [List.cons_append, List.cons.injEq] at e3
        rw [hd, e3.1, e3.2.1] at hcs
        simp [canStartDoubleBrace] at hcs

/-- The interpolation scan preserves the topic: whenever the template
contains a topic placeholder (in either form), the rendered output contains
the topic verbatim.  The step case relies on placeholder occurrences not
overlapping. -/
theorem render_keeps_topic (topic level : List Char) :
    ∀ fuel s, s.length ≤ fuel →
      (phTopicSpaced <:+: s ∨ phTopicTight <:+: s) →
      topic <:+: renderAux topic level fuel s := by
  intro fuel
  induction fuel with
  | zero =>
    intro s hlen hocc
    have hs : s = [] := List.eq_nil_of_length_eq_zero (Nat.le_zero.mp hlen)
    subst hs
    exfalso
    rcases hocc with h | h
    · exact not_substring_nil (by decide) h
    · exact not_substring_nil (by decide) h
  | succ fuel ih =>
    intro s hlen hocc
    cases s with
    | nil =>
      exfalso
      rcases hocc with h | h
      · exact not_substring_nil (by decide) h
      · exact not_substring_nil (by decide) h
    | cons c rest =>
      by_cases h1 : phTopicSpaced.isPrefixOf (c :: rest) = true
      · simp only [renderAux]
        rw [if_pos h1]
        exact ⟨[], renderAux topic level fuel ((c :: rest).drop phTopicSpaced.length),
          by simp⟩
      · by_cases h2 : phTopicTight.isPrefixOf (c :: rest) = true
        · simp only [renderAux]
          rw [if_neg h1, if_pos h2]
          exact ⟨[], renderAux topic level fuel ((c :: rest).drop phTopicTight.length),
            by simp⟩
        · by_cases h3 : phLevelSpaced.isPrefixOf (c :: rest) = true
          · simp only [renderAux]
            rw [if_neg h1, if_neg h2, if_pos h3]
            obtain ⟨tt, htt⟩ := List.isPrefixOf_iff_prefix.mp h3
            have hocc2 : phTopicSpaced <:+: (c :: rest).drop phLevelSpaced.length ∨
                phTopicTight <:+: (c :: rest).drop phLevelSpaced.length := by
              rcases hocc with h | h
              · left
                obtain ⟨pre, suf, hsp⟩ := h
                have hpre : pre ≠ [] := by
                  intro hpe
                  subst hpe
                  exact h1 (List.isPrefixOf_iff_prefix.mpr ⟨suf, by simpa using hsp⟩)
                exact occurrence_shift (by rw [← hsp, List.append_assoc]) hpre
                  htt.symm ⟨(" topic \x7d\x7d").data, by decide⟩ noInner_level_spaced
              · right
                obtain ⟨pre, suf, hsp⟩ := h
                have hpre : pre ≠ [] := by
                  intro hpe
                  subst hpe
                  exact h2 (List.isPrefixOf_iff_prefix.mpr ⟨suf, by simpa using hsp⟩)
                exact occurrence_shift (by rw [← hsp, List.append_assoc]) hpre
                  htt.symm ⟨("topic\x7d\x7d").data, by decide⟩ noInner_level_spaced
            have hlen2 : ((c :: rest).drop phLevelSpaced.length).length ≤ fuel := by
              have h11 : phLevelSpaced.length = 11 := by decide
              simp only [List.length_drop, h11, List.length_cons]
              simp only [List.length_cons] at hlen
              omega
            exact substring_extend_left (ih _ hlen2 hocc2)
          · by_cases h4 : phLevelTight.isPrefixOf (c :: rest) = true
            · simp only [renderAux]
              rw [if_neg h1, if_neg h2, if_neg h3, if_pos h4]
              obtain ⟨tt, htt⟩ := List.isPrefixOf_iff_prefix.mp h4
              have hocc2 : phTopicSpaced <:+: (c :: rest).drop phLevelTight.length ∨
                  phTopicTight <:+: (c :: rest).drop phLevelTight.length := by
                rcases hocc with h | h
                · left
                  obtain ⟨pre, suf, hsp⟩ := h
                  have hpre : pre ≠ [] := by
                    intro hpe
                    subst hpe
                    exact h1 (List.isPrefixOf_iff_prefix.mpr ⟨suf, by simpa using hsp⟩)
                  exact occurrence_shift (by rw [← hsp, List.append_assoc]) hpre
                    htt.symm ⟨(" topic \x7d\x7d").data, by decide⟩ noInner_level_tight
                · right
                  obtain ⟨pre, suf, hsp⟩ := h
                  have hpre : pre ≠ [] := by
                    intro hpe
                    subst hpe
                    exact h2 (List.isPrefixOf_iff_prefix.mpr ⟨suf, by simpa using hsp⟩)
                  exact occurrence_shift (by rw [← hsp, List.append_assoc]) hpre
                    htt.symm ⟨("topic\x7d\x7d").data, by decide⟩ noInner_level_tight
              have hlen2 : ((c :: rest).drop phLevelTight.length).length ≤ fuel := by
                have h9 : phLevelTight.length = 9 := by decide
                simp only [List.length_drop, h9, List.length_cons]
                simp only [List.length_cons] at hlen
                omega
              exact substring_extend_left (ih _ hlen2 hocc2)
            · simp only [renderAux]
              rw [if_neg h1, if_neg h2, if_neg h3, if_neg h4]
              have step : phTopicSpaced <:+: rest ∨ phTopicTight <:+: rest := by
                rcases hocc with h | h
                · left
                  obtain ⟨pre, suf, hsp⟩ := h
                  cases pre with
                  | nil =>
                    exact absurd
                      (List.isPrefixOf_iff_prefix.mpr ⟨suf, by simpa using hsp⟩) h1
                  | cons p ps =>
                    simp only [List.cons_append] at hsp
                    injection hsp with hp hr
                    exact ⟨ps, suf, hr⟩
                · right
                  obtain ⟨pre, suf, hsp⟩ := h
                  cases pre with
                  | nil =>
                    exact absurd
                      (List.isPrefixOf_iff_prefix.mpr ⟨suf, by simpa using hsp⟩) h2
                  | cons p ps =>
                    simp only [List.cons_append] at hsp
                    injection hsp with hp hr
                    exact ⟨ps, suf, hr⟩
              have hlen2 : rest.length ≤ fuel := by
                simp only [List.length_cons] at hlen
                omega
              exact substring_extend_cons c (ih rest hlen2 step)

/-- A config successfully returned by `get_config` satisfies the
topic-placeholder validator: on a miss it was just validated, and on a hit
it was validated when it entered the cache. -/
theorem get_config_ok_placeholder :
    ∀ src st level variant c st1 n v,
      cacheConfigsValidated st →
      get_config src st level variant true = (.ok c, st1, n, v) →
      hasTopicPlaceholder c.system_prompt_template = true := by
  intro src st level variant c st1 n v hinv h
  unfold get_config at h
  cases hl : st.cache.lookup (cacheKey level variant) with
  | some c0 =>
    simp only [hl, Prod.mk.injEq, Except.ok.injEq] at h
    obtain ⟨hc, -, -, -⟩ := h
    obtain ⟨l1, l2, hsplit, -⟩ := List.lookup_eq_some_iff.mp hl
    have hmem : (cacheKey level variant, c0) ∈ st.cache := by
      rw [hsplit]
      exact List.mem_append_right _ (List.mem_cons_self _ _)
    rw [← hc]
    exact hinv _ hmem
  | none =>
    simp only [hl] at h
    cases hs : src level variant with
    | none => simp [hs] at h
    | some doc =>
      simp only [hs] at h
      by_cases hv : promptConfigValid doc = true
      · rw [if_pos hv] at h
        simp only [Prod.mk.injEq, Except.ok.injEq] at h
        obtain ⟨hc, -, -, -⟩ := h
        rw [← hc]
        simp only [promptConfigValid, Bool.and_eq_true] at hv
        exact hv.1.2
      · rw [if_neg hv] at h
        simp at h

/-- Claim C3: for every state whose cached configs all passed load-time
validation (the invariant the manager maintains), a successful
`render_system_prompt` output contains the caller-supplied topic verbatim,
because the resolved config's template was validated to contain the topic
placeholder. -/
theorem claim_C3_render_contains_topic :
    ∀ src st level topic variant out st1,
      cacheConfigsValidated st →
      render_system_prompt src st level topic variant = (.ok out, st1) →
      topic <:+: out := by
  intro src st level topic variant out st1 hinv h
  unfold render_system_prompt at h
  rcases hg : get_config src st level variant true with ⟨res, st2, n, v⟩
  rw [hg] at h
  cases res with
  | error e => simp at h
  | ok cfg =>
    simp only [Prod.mk.injEq, Except.ok.injEq] at h
    obtain ⟨hout, -⟩ := h
    have hph := get_config_ok_placeholder src st level variant cfg st2 n v hinv hg
    have hocc : phTopicSpaced <:+: cfg.system_prompt_template ∨
        phTopicTight <:+: cfg.system_prompt_template := by
      simp only [hasTopicPlaceholder, Bool.or_eq_true, isSubstring,
        decide_eq_true_eq] at hph
      exact hph
    rw [← hout]
    exact render_keeps_topic topic level cfg.system_prompt_template.length
      cfg.system_prompt_template (le_refl _) hocc

/-- Claim C3, witness: rendering the concrete validated B1 config with the
topic Soccer yields output containing Soccer. -/
theorem claim_C3_witness :
    ("Soccer").data <:+:
      ("Create a Soccer activity for level B1. Make it engaging and fun.").data :=
  claim_C3_render_contains_topic exampleSource ⟨[]⟩ (("B1").data) (("Soccer").data)
    (("default").data)
    (("Create a Soccer activity for level B1. Make it engaging and fun.").data)
    ⟨[(cacheKey (("B1").data) (("default").data), exampleConfigB1)]⟩
    (by intro p hp; simp at hp)
    (by rfl)

/-- End-to-end sanity: on concrete inputs the modelled pipeline resolves
the config, renders, extracts, validates and succeeds, with the cache-hit
flag left at its default. -/
theorem generate_activity_end_to_end_example :
    ((generate_activity exampleSource exampleClient ⟨[]⟩ 42 exampleRequestB1).1.toOption.map
        fun r => (r.success, r.cached)) = some (true, false) := by
  decide

end CETac
